import Mathlib

/-!
Shallow embedding of the chat-completions service
(`app/features/chat/models.py`, `app/shared/openai_adapter.py`,
`app/features/chat/routes.py`, `app/core/exceptions.py`) and proofs of the
specified properties of the message adapter, the response builder, the route
handler and the domain-exception handler.
-/

namespace Paddy

/-! ## Data model (`app/features/chat/models.py`) -/

/-- `ChatMessage.role`: `Literal["system", "user", "assistant"]`. -/
inductive Role
  | system
  | user
  | assistant
deriving DecidableEq, Repr

/-- `ContentPart`: one part of an array-format message content.
`image_url` is carried opaquely as an optional string key set. -/
structure ContentPart where
  type : String
  text : Option String
deriving DecidableEq, Repr

/-- `ChatMessage.content`: `str | list[ContentPart]`. -/
inductive MessageContent
  | str (s : String)
  | parts (l : List ContentPart)
deriving DecidableEq, Repr

/-- A single message in the OpenAI chat format. -/
structure ChatMessage where
  role : Role
  content : MessageContent
deriving DecidableEq, Repr

/-- Python truthiness of an `str | None` value: `None` and `""` are falsy. -/
def truthy : Option String → Bool
  | none => false
  | some s => !s.isEmpty

/-- `ChatMessage.text_content`: a plain string passes through unchanged; for
array content, join the `text` of the parts with `part.type == "text" and
part.text` (truthy), in order. -/
def text_content (m : ChatMessage) : String :=
  match m.content with
  | .str s => s
  | .parts l =>
      String.join ((l.filter fun p => p.type == "text" && truthy p.text).map
        fun p => p.text.getD "")

/-- A variant of `text_content` that makes the partiality of the Python
generator expression observable: each selected part contributes its raw
`text : str | None` field, and joining a `None` (which in Python would raise
`TypeError` inside `"".join`) yields `none`. -/
def joinStrict : List (Option String) → Option String
  | [] => some ""
  | none :: _ => none
  | some s :: rest => (joinStrict rest).map (fun t => s ++ t)

/-- `text_content` with `None`-joining made observable (see `joinStrict`). -/
def text_content_checked (m : ChatMessage) : Option String :=
  match m.content with
  | .str s => some s
  | .parts l =>
      joinStrict ((l.filter fun p => p.type == "text" && truthy p.text).map
        fun p => p.text)

/-! ## Message adapter (`app/shared/openai_adapter.py`) -/

/-- Pydantic AI `ModelMessage`: a `ModelRequest` with one `UserPromptPart`, or
a `ModelResponse` with one `TextPart`; only the text content is relevant. -/
inductive ModelMessage
  | request (content : String)
  | response (content : String)
deriving DecidableEq, Repr

/-- The `for msg in reversed(messages)` loop of `openai_messages_to_pydantic`:
the first user message (scanning most recent to oldest) becomes the prompt,
system messages are skipped, everything else is appended to `prior`. -/
def scanLoop : List ChatMessage → Option String → List ChatMessage →
    Option String × List ChatMessage
  | [], user_prompt, prior => (user_prompt, prior)
  | m :: rest, user_prompt, prior =>
      if m.role = Role.user ∧ user_prompt = none then
        scanLoop rest (some (text_content m)) prior
      else if m.role = Role.system then
        scanLoop rest user_prompt prior
      else
        scanLoop rest user_prompt (prior ++ [m])

/-- The second loop of `openai_messages_to_pydantic`: a retained user message
becomes a `ModelRequest`, an assistant message a `ModelResponse`. -/
def toModelMessage (m : ChatMessage) : Option ModelMessage :=
  if m.role = Role.user then some (ModelMessage.request (text_content m))
  else if m.role = Role.assistant then some (ModelMessage.response (text_content m))
  else none

/-- `openai_messages_to_pydantic`: extract the last user message as the prompt
and convert all remaining user/assistant messages into history, dropping
system messages; `ValueError` is modelled as `Except.error` with the message. -/
def openai_messages_to_pydantic (messages : List ChatMessage) :
    Except String (String × List ModelMessage) :=
  if messages.isEmpty then
    Except.error "Messages array must not be empty."
  else
    match scanLoop messages.reverse none [] with
    | (none, _) => Except.error "Messages must contain at least one user message."
    | (some user_prompt, prior_messages) =>
        Except.ok (user_prompt, prior_messages.reverse.filterMap toModelMessage)

/-- The Boolean predicate for messages the scan retains in the history. -/
def nonSystem (m : ChatMessage) : Bool := m.role != Role.system

/-- The total conversion applied to retained (non-system) messages. -/
def convertTurn (m : ChatMessage) : ModelMessage :=
  if m.role = Role.user then ModelMessage.request (text_content m)
  else ModelMessage.response (text_content m)

/-! ## Response builder (`app/shared/openai_adapter.py`, `models.py`) -/

/-- `ResponseMessage`: assistant message in a completion choice. -/
structure ResponseMessage where
  role : String
  content : String
deriving DecidableEq, Repr

/-- `Choice`: a single completion choice. -/
structure Choice where
  index : Nat
  message : ResponseMessage
  finish_reason : String
deriving DecidableEq, Repr

/-- `Usage`: token usage statistics. -/
structure Usage where
  prompt_tokens : Int
  completion_tokens : Int
  total_tokens : Int
deriving DecidableEq, Repr

/-- `ChatCompletionResponse`. -/
structure ChatCompletionResponse where
  id : String
  object : String
  created : Int
  model : String
  choices : List Choice
  usage : Usage
deriving DecidableEq, Repr

/-- `build_chat_response`. The two effects — `uuid.uuid4().hex` and
`int(utcnow().timestamp())` — are passed in as the explicit inputs `uuidHex`
(the 32 lowercase-hex digits of a fresh UUID) and `now`.  `x or 0` on an
`int | None` is exactly `Option.getD x 0` (it maps both `None` and `0` to
`0`). -/
def build_chat_response (uuidHex : String) (now : Int) (output model : String)
    (request_tokens response_tokens total_tokens : Option Int) :
    ChatCompletionResponse :=
  let response_id : String := "chatcmpl-" ++ uuidHex.take 29
  let created : Int := now
  { id := response_id
    object := "chat.completion"
    created := created
    model := model
    choices := [{ index := 0
                  message := { role := "assistant", content := output }
                  finish_reason := "stop" }]
    usage := { prompt_tokens := request_tokens.getD 0
               completion_tokens := response_tokens.getD 0
               total_tokens := total_tokens.getD 0 } }

/-- The shape of `uuid.uuid4().hex`: 32 lowercase hexadecimal characters. -/
def isLowerHexChar (c : Char) : Bool :=
  c.isDigit || (decide ('a' ≤ c) && decide (c ≤ 'f'))

/-- The shape of `uuid.uuid4().hex` as a predicate on the drawn string. -/
def isUuid4Hex (s : String) : Prop :=
  s.length = 32 ∧ ∀ c ∈ s.data, isLowerHexChar c = true

/-! ## Route handler (`app/features/chat/routes.py`) -/

/-- The settings fields the chat route reads (`app/core/config.py`). -/
structure Settings where
  api_key : String
  obsidian_vault_path : String
deriving DecidableEq, Repr

/-- `VaultDependencies` (`app/core/dependencies.py`). -/
structure VaultDependencies where
  vault_path : String
deriving DecidableEq, Repr

/-- An `HTTPException` carrying a status code and a detail string. -/
structure HTTPError where
  status_code : Nat
  detail : String
deriving DecidableEq, Repr

/-- `ChatCompletionRequest`: the four optional tuning parameters are accepted
but (per the route code) never read.  The two float-typed parameters are
carried as opaque rational values, `max_tokens` as an integer. -/
structure ChatCompletionRequest where
  model : String
  messages : List ChatMessage
  stream : Bool
  temperature : Option Rat
  max_tokens : Option Int
  top_p : Option Rat
  frequency_penalty : Option Rat
deriving DecidableEq, Repr

/-- Modelled from the spec: FastAPI's `HTTPBearer` security dependency is
library code not present in this repository; per the spec's status table
("403 missing auth header"), a missing `Authorization` header is rejected
with 403 before the handler runs, otherwise the bearer token is handed on. -/
def http_bearer (authorization : Option String) : Except HTTPError String :=
  match authorization with
  | none => Except.error { status_code := 403, detail := "Not authenticated" }
  | some token => Except.ok token

/-- `verify_api_key`: exact string comparison of the bearer credential
against `settings.api_key`; mismatch yields 401. -/
def verify_api_key (settings : Settings) (credentials : String) :
    Except HTTPError String :=
  if credentials ≠ settings.api_key then
    Except.error { status_code := 401, detail := "Invalid API key" }
  else
    Except.ok credentials

/-- The usage counters exposed by a Pydantic AI run result
(`result.usage()`); each may be absent. -/
structure RunUsage where
  request_tokens : Option Int
  response_tokens : Option Int
  total_tokens : Option Int
deriving DecidableEq, Repr

/-- The agent run result (`agent_run.result`): output text plus usage. -/
structure RunResult where
  data : String
  usage : RunUsage
deriving DecidableEq, Repr

/-- Outcome of one agent invocation: the `async with vault_agent.iter(...)`
block either raises an exception (carrying its `str(e)` text) or completes
with `agent_run.result`, which may be `None`. -/
inductive AgentOutcome
  | raises (e : String)
  | returns (result : Option RunResult)
deriving DecidableEq, Repr

/-- The arguments the route hands to `vault_agent.iter`. -/
structure AgentCall where
  user_prompt : String
  message_history : List ModelMessage
  deps : VaultDependencies
deriving DecidableEq, Repr

/-- The external agent as a function from the invocation arguments to an
outcome. -/
def AgentFn : Type :=
  String → List ModelMessage → VaultDependencies → AgentOutcome

/-- The `chat_completions` handler body (after the security dependency has
passed).  Returns the HTTP outcome together with the list of agent
invocations the call performed, so that short-circuiting and forwarded
arguments are observable. -/
def chat_completions (settings : Settings) (agent : AgentFn)
    (uuidHex : String) (now : Int) (req : ChatCompletionRequest) :
    Except HTTPError ChatCompletionResponse × List AgentCall :=
  if req.stream then
    (Except.error
       { status_code := 400
         detail := "Streaming not yet supported. Set stream to false in Copilot settings or enable CORS bypass." },
     [])
  else
    match openai_messages_to_pydantic req.messages with
    | Except.error e => (Except.error { status_code := 400, detail := e }, [])
    | Except.ok (user_prompt, message_history) =>
        let deps : VaultDependencies := { vault_path := settings.obsidian_vault_path }
        match agent user_prompt message_history deps with
        | AgentOutcome.raises _ =>
            (Except.error
               { status_code := 500
                 detail := "Agent execution failed. Check server logs for details." },
             [{ user_prompt := user_prompt, message_history := message_history, deps := deps }])
        | AgentOutcome.returns none =>
            (Except.error { status_code := 500, detail := "Agent returned no result." },
             [{ user_prompt := user_prompt, message_history := message_history, deps := deps }])
        | AgentOutcome.returns (some result) =>
            (Except.ok (build_chat_response uuidHex now result.data req.model
                result.usage.request_tokens result.usage.response_tokens
                result.usage.total_tokens),
             [{ user_prompt := user_prompt, message_history := message_history, deps := deps }])

/-- The full endpoint: the `HTTPBearer` security dependency, then
`verify_api_key`, then the handler body. -/
def chat_endpoint (settings : Settings) (agent : AgentFn)
    (uuidHex : String) (now : Int) (authorization : Option String)
    (req : ChatCompletionRequest) :
    Except HTTPError ChatCompletionResponse × List AgentCall :=
  match http_bearer authorization with
  | Except.error e => (Except.error e, [])
  | Except.ok credentials =>
      match verify_api_key settings credentials with
      | Except.error e => (Except.error e, [])
      | Except.ok _ => chat_completions settings agent uuidHex now req

/-! ## Domain exceptions (`app/core/exceptions.py`) -/

/-- The `PaddyError` exception hierarchy as a sum: the two specific leaf
classes, plus "some other `VaultError`" and "some other `PaddyError`";
each value carries its `str(exc)` message. -/
inductive PaddyError
  | noteNotFound (msg : String)
  | vaultPath (msg : String)
  | vaultOther (msg : String)
  | paddyOther (msg : String)
deriving DecidableEq, Repr

/-- `type(exc).__name__` for each variant. -/
def errorTypeName : PaddyError → String
  | .noteNotFound _ => "NoteNotFoundError"
  | .vaultPath _ => "VaultPathError"
  | .vaultOther _ => "VaultError"
  | .paddyOther _ => "PaddyError"

/-- `str(exc)` for each variant. -/
def errorMessage : PaddyError → String
  | .noteNotFound m => m
  | .vaultPath m => m
  | .vaultOther m => m
  | .paddyOther m => m

/-- The incoming request fields the handler logs. -/
structure Request where
  path : String
  method : String
deriving DecidableEq, Repr

/-- The structured log entry emitted by `paddy_exception_handler`. -/
structure LogEntry where
  event : String
  error_type : String
  error_message : String
  path : String
  method : String
deriving DecidableEq, Repr

/-- The `JSONResponse` body built by `paddy_exception_handler`. -/
structure JSONErrorResponse where
  status_code : Nat
  error : String
  type : String
deriving DecidableEq, Repr

/-- `paddy_exception_handler`: log structured fields, then pick the status by
the `isinstance` chain (`NoteNotFoundError` → 404, `VaultPathError` → 400,
default 500) and build the JSON body. -/
def paddy_exception_handler (request : Request) (exc : PaddyError) :
    LogEntry × JSONErrorResponse :=
  let log : LogEntry :=
    { event := "vault.exception_raised"
      error_type := errorTypeName exc
      error_message := errorMessage exc
      path := request.path
      method := request.method }
  let status_code : Nat :=
    match exc with
    | .noteNotFound _ => 404
    | .vaultPath _ => 400
    | .vaultOther _ => 500
    | .paddyOther _ => 500
  (log, { status_code := status_code, error := errorMessage exc, type := errorTypeName exc })

/-! ## Lemmas about the reverse scan of the message adapter -/

theorem scanLoop_append (l1 l2 : List ChatMessage) (p : Option String)
    (acc : List ChatMessage) :
    scanLoop (l1 ++ l2) p acc =
      scanLoop l2 (scanLoop l1 p acc).1 (scanLoop l1 p acc).2 := by
  induction l1 generalizing p acc with
  | nil => simp [scanLoop]
  | cons m rest ih =>
      simp only [List.cons_append, scanLoop, List.append_eq]
      by_cases h1 : m.role = Role.user ∧ p = none
      · rw [if_pos h1, if_pos h1, ih]
      · rw [if_neg h1, if_neg h1]
        by_cases h2 : m.role = Role.system
        · rw [if_pos h2, if_pos h2, ih]
        · rw [if_neg h2, if_neg h2, ih]

theorem scanLoop_some (l : List ChatMessage) (p : String) (acc : List ChatMessage) :
    scanLoop l (some p) acc = (some p, acc ++ l.filter nonSystem) := by
  induction l generalizing acc with
  | nil => simp [scanLoop]
  | cons m rest ih =>
      simp only [scanLoop]
      rw [if_neg (by simp)]
      by_cases h2 : m.role = Role.system
      · rw [if_pos h2, ih]
        simp [nonSystem, List.filter_cons, h2]
      · rw [if_neg h2, ih]
        simp [nonSystem, List.filter_cons, h2]

theorem scanLoop_none_of_noUser (l : List ChatMessage) (acc : List ChatMessage)
    (h : ∀ m ∈ l, m.role ≠ Role.user) :
    scanLoop l none acc = (none, acc ++ l.filter nonSystem) := by
  induction l generalizing acc with
  | nil => simp [scanLoop]
  | cons m rest ih =>
      have hm : m.role ≠ Role.user := h m (List.mem_cons_self m rest)
      simp only [scanLoop]
      rw [if_neg (by simp [hm])]
      have hrest : ∀ x ∈ rest, x.role ≠ Role.user :=
        fun x hx => h x (List.mem_cons_of_mem m hx)
      by_cases h2 : m.role = Role.system
      · rw [if_pos h2, ih _ hrest]
        simp [nonSystem, List.filter_cons, h2]
      · rw [if_neg h2, ih _ hrest]
        simp [nonSystem, List.filter_cons, h2]

theorem scanLoop_fst_none_iff (l : List ChatMessage) (acc : List ChatMessage) :
    (scanLoop l none acc).1 = none ↔ ∀ m ∈ l, m.role ≠ Role.user := by
  induction l generalizing acc with
  | nil => simp [scanLoop]
  | cons m rest ih =>
      simp only [scanLoop]
      by_cases hm : m.role = Role.user
      · rw [if_pos (by simp [hm]), scanLoop_some]
        simp [hm]
      · rw [if_neg (by simp [hm])]
        by_cases h2 : m.role = Role.system
        · rw [if_pos h2]
          simp [ih, hm]
        · rw [if_neg h2]
          simp [ih, hm]

theorem filterMap_toModelMessage_eq_map (l : List ChatMessage)
    (h : ∀ m ∈ l, m.role ≠ Role.system) :
    l.filterMap toModelMessage = l.map convertTurn := by
  induction l with
  | nil => rfl
  | cons m rest ih =>
      have hm := h m (List.mem_cons_self m rest)
      have hrest : ∀ x ∈ rest, x.role ≠ Role.system :=
        fun x hx => h x (List.mem_cons_of_mem m hx)
      rw [List.filterMap_cons, List.map_cons, ih hrest]
      cases hrole : m.role with
      | system => exact absurd hrole hm
      | user => simp [toModelMessage, convertTurn, hrole]
      | assistant => simp [toModelMessage, convertTurn, hrole]

theorem mem_filter_nonSystem {m : ChatMessage} {l : List ChatMessage}
    (h : m ∈ l.filter nonSystem) : m.role ≠ Role.system := by
  have := (List.mem_filter.mp h).2
  simpa [nonSystem] using this

/-- Claim C1: on any message list decomposed as `pre ++ u :: post` with `u`
a user message and no user message in `post` (so `u` is the last user
message), the adapter returns `u`'s normalized text as the prompt, and as
history exactly the non-system messages among the rest, in chronological
order, user turns as requests and assistant turns as responses.  With
`pre = post = []` (a single user message) the history is the empty list. -/
theorem C1_adapter_extracts_last_user_and_history
    (pre post : List ChatMessage) (u : ChatMessage)
    (hu : u.role = Role.user) (hpost : ∀ m ∈ post, m.role ≠ Role.user) :
    openai_messages_to_pydantic (pre ++ u :: post) =
      Except.ok (text_content u, ((pre ++ post).filter nonSystem).map convertTurn) := by
  unfold openai_messages_to_pydantic
  rw [if_neg (by simp)]
  have hrev : (pre ++ u :: post).reverse = post.reverse ++ (u :: pre.reverse) := by
    simp
  rw [hrev, scanLoop_append,
    scanLoop_none_of_noUser post.reverse []
      (fun m hm => hpost m (List.mem_reverse.mp hm))]
  simp only [scanLoop]
  rw [if_pos (by simp [hu]), scanLoop_some]
  have hprior :
      ((([] : List ChatMessage) ++ post.reverse.filter nonSystem) ++
          pre.reverse.filter nonSystem).reverse =
        (pre ++ post).filter nonSystem := by
    simp [List.filter_reverse, List.filter_append]
  show Except.ok (text_content u,
      ((([] : List ChatMessage) ++ post.reverse.filter nonSystem) ++
          pre.reverse.filter nonSystem).reverse.filterMap toModelMessage) = _
  rw [hprior, filterMap_toModelMessage_eq_map _ (fun m hm => mem_filter_nonSystem hm)]

/-- Witness for C1 at a concrete input: `[system, user "a", assistant "b",
user "c"]` yields prompt `"c"` and history `[request "a", response "b"]`;
and a single user message yields an empty history. -/
theorem C1_witness :
    openai_messages_to_pydantic
        [⟨Role.system, MessageContent.str "sys"⟩,
         ⟨Role.user, MessageContent.str "a"⟩,
         ⟨Role.assistant, MessageContent.str "b"⟩,
         ⟨Role.user, MessageContent.str "c"⟩] =
      Except.ok ("c", [ModelMessage.request "a", ModelMessage.response "b"]) ∧
    openai_messages_to_pydantic [⟨Role.user, MessageContent.str "hi"⟩] =
      Except.ok ("hi", []) := by
  constructor
  · have h := C1_adapter_extracts_last_user_and_history
      [⟨Role.system, MessageContent.str "sys"⟩,
       ⟨Role.user, MessageContent.str "a"⟩,
       ⟨Role.assistant, MessageContent.str "b"⟩]
      [] ⟨Role.user, MessageContent.str "c"⟩ rfl (by intro m hm; simp at hm)
    exact h.trans (by rfl)
  · have h := C1_adapter_extracts_last_user_and_history
      [] [] ⟨Role.user, MessageContent.str "hi"⟩ rfl (by intro m hm; simp at hm)
    exact h.trans (by rfl)

/-- Claim C2: the adapter fails (with a `ValueError`, modelled as
`Except.error`) if and only if the input is empty or contains no user
message; and whenever it fails while streaming was not requested, the route
handler returns HTTP 400 carrying the error text, without invoking the
agent. -/
theorem C2_adapter_validation_errors :
    (∀ messages : List ChatMessage,
      (∃ e, openai_messages_to_pydantic messages = Except.error e) ↔
        (messages = [] ∨ ∀ m ∈ messages, m.role ≠ Role.user)) ∧
    (∀ (settings : Settings) (agent : AgentFn) (uuidHex : String) (now : Int)
        (req : ChatCompletionRequest) (e : String),
      req.stream = false →
      openai_messages_to_pydantic req.messages = Except.error e →
      chat_completions settings agent uuidHex now req =
        (Except.error { status_code := 400, detail := e }, [])) := by
  constructor
  · intro messages
    unfold openai_messages_to_pydantic
    by_cases hemp : messages.isEmpty
    · rw [if_pos hemp]
      simp [List.isEmpty_iff.mp hemp]
    · rw [if_neg hemp]
      have hne : messages ≠ [] := by
        intro h
        exact hemp (by simp [h])
      rcases hscan : scanLoop messages.reverse none [] with ⟨p, prior⟩
      cases p with
      | none =>
          have hall : ∀ m ∈ messages, m.role ≠ Role.user := by
            have h1 : (scanLoop messages.reverse none []).1 = none := by
              rw [hscan]
            have h2 := (scanLoop_fst_none_iff messages.reverse []).mp h1
            intro m hm
            exact h2 m (List.mem_reverse.mpr hm)
          simp [hscan, hne]
          exact hall
      | some q =>
          have hnall : ¬ ∀ m ∈ messages, m.role ≠ Role.user := by
            intro hall
            have h1 : (scanLoop messages.reverse none []).1 = none :=
              (scanLoop_fst_none_iff messages.reverse []).mpr
                (fun m hm => hall m (List.mem_reverse.mp hm))
            rw [hscan] at h1
            simp at h1
          simp [hscan, hne, hnall]
  · intro settings agent uuidHex now req e hstream herr
    unfold chat_completions
    rw [hstream]
    simp [herr]

/-- Witness for C2: the empty list is rejected, and the route turns the
"empty input" adapter error into a 400 response with no agent call. -/
theorem C2_witness :
    (∃ e, openai_messages_to_pydantic [] = Except.error e) ∧
    chat_completions ⟨"k", "/vault"⟩ (fun _ _ _ => AgentOutcome.returns none)
        "0123456789abcdef0123456789abcdef" 0 ⟨"m", [], false, none, none, none, none⟩ =
      (Except.error ⟨400, "Messages array must not be empty."⟩, []) := by
  constructor
  · exact (C2_adapter_validation_errors.1 []).mpr (Or.inl rfl)
  · exact C2_adapter_validation_errors.2 ⟨"k", "/vault"⟩
      (fun _ _ _ => AgentOutcome.returns none) "0123456789abcdef0123456789abcdef" 0
      ⟨"m", [], false, none, none, none, none⟩ "Messages array must not be empty." rfl rfl

/-! ## Response builder properties -/

theorem string_append_left_cancel (a b c : String) (h : a ++ b = a ++ c) :
    b = c := by
  have hd := congrArg String.data h
  rw [String.data_append, String.data_append] at hd
  exact String.ext (List.append_cancel_left hd)

/-- Claim C3: every response built by `build_chat_response` has object
`"chat.completion"`, exactly one choice with finish reason `"stop"`,
assistant role and the given output as content, token counts defaulted to
zero when absent and passed through otherwise, an id starting with the
literal `"chatcmpl-"`, and two calls whose fresh UUID draws differ (in their
first 29 hex digits) produce distinct ids. -/
theorem C3_build_chat_response_shape :
    ∀ (uuidHex : String) (now : Int) (output model : String)
      (rt ct tt : Option Int),
      (build_chat_response uuidHex now output model rt ct tt).object = "chat.completion" ∧
      (build_chat_response uuidHex now output model rt ct tt).choices =
        [{ index := 0
           message := { role := "assistant", content := output }
           finish_reason := "stop" }] ∧
      (build_chat_response uuidHex now output model rt ct tt).usage =
        { prompt_tokens := rt.getD 0
          completion_tokens := ct.getD 0
          total_tokens := tt.getD 0 } ∧
      (build_chat_response uuidHex now output model rt ct tt).id =
        "chatcmpl-" ++ uuidHex.take 29 ∧
      (∀ (uuidHex2 : String) (now2 : Int) (output2 model2 : String)
          (rt2 ct2 tt2 : Option Int),
        uuidHex.take 29 ≠ uuidHex2.take 29 →
        (build_chat_response uuidHex now output model rt ct tt).id ≠
          (build_chat_response uuidHex2 now2 output2 model2 rt2 ct2 tt2).id) := by
  intro uuidHex now output model rt ct tt
  refine ⟨rfl, rfl, rfl, rfl, ?_⟩
  intro uuidHex2 now2 output2 model2 rt2 ct2 tt2 hne h
  exact hne (string_append_left_cancel _ _ _ h)

set_option maxRecDepth 8192 in
/-- Witness for C3 at concrete inputs, with two distinct UUID draws. -/
theorem C3_witness :
    (build_chat_response "0123456789abcdef0123456789abcdef" 5 "out" "gpt"
        none (some 7) none).object = "chat.completion" ∧
    (build_chat_response "0123456789abcdef0123456789abcdef" 5 "out" "gpt"
        none (some 7) none).id ≠
      (build_chat_response "fedcba9876543210fedcba9876543210" 6 "o2" "g2"
        (some 1) none (some 2)).id := by
  constructor
  · exact (C3_build_chat_response_shape "0123456789abcdef0123456789abcdef" 5
      "out" "gpt" none (some 7) none).1
  · exact (C3_build_chat_response_shape "0123456789abcdef0123456789abcdef" 5
      "out" "gpt" none (some 7) none).2.2.2.2
      "fedcba9876543210fedcba9876543210" 6 "o2" "g2" (some 1) none (some 2)
      (by decide)

/-- Claim C10: under the shape of `uuid.uuid4().hex` (32 lowercase hex
digits), every produced identifier is the 9-character literal `"chatcmpl-"`
followed by exactly 29 lowercase hexadecimal characters — 38 characters in
total. -/
theorem C10_response_id_format :
    ∀ (uuidHex : String) (now : Int) (output model : String)
      (rt ct tt : Option Int),
      isUuid4Hex uuidHex →
      (build_chat_response uuidHex now output model rt ct tt).id.length = 38 ∧
      ∃ tail : String,
        (build_chat_response uuidHex now output model rt ct tt).id =
          "chatcmpl-" ++ tail ∧
        tail.length = 29 ∧
        ∀ c ∈ tail.data, isLowerHexChar c = true := by
  intro uuidHex now output model rt ct tt hshape
  obtain ⟨hlen, hhex⟩ := hshape
  have hid : (build_chat_response uuidHex now output model rt ct tt).id =
      "chatcmpl-" ++ uuidHex.take 29 := rfl
  have htail_data : (uuidHex.take 29).data = uuidHex.data.take 29 :=
    String.data_take uuidHex 29
  have hdlen : uuidHex.data.length = 32 := hlen
  have len_data : ∀ t : String, t.length = t.data.length := fun _ => rfl
  have htail_len : (uuidHex.take 29).length = 29 := by
    rw [len_data, htail_data, List.length_take, hdlen]
    rfl
  constructor
  · rw [hid, len_data, String.data_append, List.length_append, ← len_data,
      ← len_data, htail_len]
    decide
  · refine ⟨uuidHex.take 29, hid, htail_len, ?_⟩
    intro c hc
    rw [htail_data] at hc
    exact hhex c (List.take_subset 29 uuidHex.data hc)

set_option maxRecDepth 8192 in
/-- Witness for C10 at a concrete 32-hex-digit UUID draw. -/
theorem C10_witness :
    isUuid4Hex "0123456789abcdef0123456789abcdef" ∧
    (build_chat_response "0123456789abcdef0123456789abcdef" 5 "out" "gpt"
        none none none).id.length = 38 := by
  have hshape : isUuid4Hex "0123456789abcdef0123456789abcdef" := by
    constructor
    · decide
    · decide
  exact ⟨hshape, (C10_response_id_format "0123456789abcdef0123456789abcdef" 5
    "out" "gpt" none none none hshape).1⟩

/-! ## Route handler properties -/

/-- Claim C4: a bearer token different from the configured `api_key` yields
HTTP 401; a missing `Authorization` header yields HTTP 403; a request with
`stream = true` (after successful auth) yields HTTP 400 — each with an empty
agent-call list, for every agent and every message list, so neither the
adapter outcome nor the agent can influence these failures. -/
theorem C4_auth_and_stream_short_circuit :
    (∀ (settings : Settings) (agent : AgentFn) (uuidHex : String) (now : Int)
        (token : String) (req : ChatCompletionRequest),
      token ≠ settings.api_key →
      chat_endpoint settings agent uuidHex now (some token) req =
        (Except.error { status_code := 401, detail := "Invalid API key" }, [])) ∧
    (∀ (settings : Settings) (agent : AgentFn) (uuidHex : String) (now : Int)
        (req : ChatCompletionRequest),
      chat_endpoint settings agent uuidHex now none req =
        (Except.error { status_code := 403, detail := "Not authenticated" }, [])) ∧
    (∀ (settings : Settings) (agent : AgentFn) (uuidHex : String) (now : Int)
        (req : ChatCompletionRequest),
      req.stream = true →
      chat_endpoint settings agent uuidHex now (some settings.api_key) req =
        (Except.error
          { status_code := 400
            detail := "Streaming not yet supported. Set stream to false in Copilot settings or enable CORS bypass." },
         [])) := by
  refine ⟨?_, ?_, ?_⟩
  · intro settings agent uuidHex now token req hne
    simp [chat_endpoint, http_bearer, verify_api_key, hne]
  · intro settings agent uuidHex now req
    rfl
  · intro settings agent uuidHex now req hstream
    simp [chat_endpoint, http_bearer, verify_api_key, chat_completions, hstream]

/-- Witness for C4: a wrong token, a missing header and a streaming request
at concrete inputs. -/
theorem C4_witness :
    chat_endpoint ⟨"secret", "/vault"⟩ (fun _ _ _ => AgentOutcome.returns none)
        "0123456789abcdef0123456789abcdef" 0 (some "wrong")
        ⟨"m", [⟨Role.user, MessageContent.str "hi"⟩], false, none, none, none, none⟩ =
      (Except.error ⟨401, "Invalid API key"⟩, []) ∧
    chat_endpoint ⟨"secret", "/vault"⟩ (fun _ _ _ => AgentOutcome.returns none)
        "0123456789abcdef0123456789abcdef" 0 none
        ⟨"m", [⟨Role.user, MessageContent.str "hi"⟩], false, none, none, none, none⟩ =
      (Except.error ⟨403, "Not authenticated"⟩, []) ∧
    chat_endpoint ⟨"secret", "/vault"⟩ (fun _ _ _ => AgentOutcome.returns none)
        "0123456789abcdef0123456789abcdef" 0 (some "secret")
        ⟨"m", [⟨Role.user, MessageContent.str "hi"⟩], true, none, none, none, none⟩ =
      (Except.error
        ⟨400, "Streaming not yet supported. Set stream to false in Copilot settings or enable CORS bypass."⟩,
       []) := by
  refine ⟨?_, ?_, ?_⟩
  · exact C4_auth_and_stream_short_circuit.1 ⟨"secret", "/vault"⟩
      (fun _ _ _ => AgentOutcome.returns none) "0123456789abcdef0123456789abcdef" 0
      "wrong" ⟨"m", [⟨Role.user, MessageContent.str "hi"⟩], false, none, none, none, none⟩
      (by decide)
  · exact C4_auth_and_stream_short_circuit.2.1 ⟨"secret", "/vault"⟩
      (fun _ _ _ => AgentOutcome.returns none) "0123456789abcdef0123456789abcdef" 0
      ⟨"m", [⟨Role.user, MessageContent.str "hi"⟩], false, none, none, none, none⟩
  · exact C4_auth_and_stream_short_circuit.2.2 ⟨"secret", "/vault"⟩
      (fun _ _ _ => AgentOutcome.returns none) "0123456789abcdef0123456789abcdef" 0
      ⟨"m", [⟨Role.user, MessageContent.str "hi"⟩], true, none, none, none, none⟩ rfl

/-- Claim C5: whenever the agent invocation raises an exception — whatever
its text `e` — the handler answers HTTP 500 with the fixed generic detail
(the conclusion does not depend on `e`); and whenever the agent run
completes with a null result, HTTP 500 with the fixed "no result" detail. -/
theorem C5_agent_failure_masked :
    ∀ (settings : Settings) (agent : AgentFn) (uuidHex : String) (now : Int)
      (req : ChatCompletionRequest) (prompt : String)
      (history : List ModelMessage) (e : String),
      req.stream = false →
      openai_messages_to_pydantic req.messages = Except.ok (prompt, history) →
      (agent prompt history { vault_path := settings.obsidian_vault_path } =
          AgentOutcome.raises e →
        (chat_completions settings agent uuidHex now req).1 =
          Except.error
            { status_code := 500
              detail := "Agent execution failed. Check server logs for details." }) ∧
      (agent prompt history { vault_path := settings.obsidian_vault_path } =
          AgentOutcome.returns none →
        (chat_completions settings agent uuidHex now req).1 =
          Except.error { status_code := 500, detail := "Agent returned no result." }) := by
  intro settings agent uuidHex now req prompt history e hstream hok
  constructor
  · intro hagent
    simp [chat_completions, hstream, hok, hagent]
  · intro hagent
    simp [chat_completions, hstream, hok, hagent]

/-- Witness for C5: an agent raising "boom" and an agent returning a null
result, on a one-user-message request. -/
theorem C5_witness :
    (chat_completions ⟨"k", "/vault"⟩ (fun _ _ _ => AgentOutcome.raises "boom")
        "0123456789abcdef0123456789abcdef" 0
        ⟨"m", [⟨Role.user, MessageContent.str "hi"⟩], false, none, none, none, none⟩).1 =
      Except.error ⟨500, "Agent execution failed. Check server logs for details."⟩ ∧
    (chat_completions ⟨"k", "/vault"⟩ (fun _ _ _ => AgentOutcome.returns none)
        "0123456789abcdef0123456789abcdef" 0
        ⟨"m", [⟨Role.user, MessageContent.str "hi"⟩], false, none, none, none, none⟩).1 =
      Except.error ⟨500, "Agent returned no result."⟩ := by
  constructor
  · exact (C5_agent_failure_masked ⟨"k", "/vault"⟩
      (fun _ _ _ => AgentOutcome.raises "boom") "0123456789abcdef0123456789abcdef" 0
      ⟨"m", [⟨Role.user, MessageContent.str "hi"⟩], false, none, none, none, none⟩
      "hi" [] "boom" rfl rfl).1 rfl
  · exact (C5_agent_failure_masked ⟨"k", "/vault"⟩
      (fun _ _ _ => AgentOutcome.returns none) "0123456789abcdef0123456789abcdef" 0
      ⟨"m", [⟨Role.user, MessageContent.str "hi"⟩], false, none, none, none, none⟩
      "hi" [] "irrelevant" rfl rfl).2 rfl

/-- Claim C6: changing only the four optional tuning parameters
(`temperature`, `max_tokens`, `top_p`, `frequency_penalty`) of a request
changes nothing about the endpoint's behavior: the HTTP outcome and the
entire list of agent invocations (prompt, history, dependency bundle) are
identical. -/
theorem C6_tuning_params_not_forwarded :
    ∀ (settings : Settings) (agent : AgentFn) (uuidHex : String) (now : Int)
      (auth : Option String) (req : ChatCompletionRequest)
      (t tp fp : Option Rat) (mt : Option Int),
      chat_endpoint settings agent uuidHex now auth
          { req with temperature := t, max_tokens := mt, top_p := tp, frequency_penalty := fp } =
        chat_endpoint settings agent uuidHex now auth req := by
  intro settings agent uuidHex now auth req t tp fp mt
  rfl

/-- Witness for C6 at a concrete request and agent. -/
theorem C6_witness :
    chat_endpoint ⟨"k", "/vault"⟩
        (fun p _ _ => AgentOutcome.returns (some ⟨p ++ "!", ⟨some 1, some 2, some 3⟩⟩))
        "0123456789abcdef0123456789abcdef" 0 (some "k")
        ⟨"m", [⟨Role.user, MessageContent.str "hi"⟩], false, some 1, some 64, some 1, some 0⟩ =
      chat_endpoint ⟨"k", "/vault"⟩
        (fun p _ _ => AgentOutcome.returns (some ⟨p ++ "!", ⟨some 1, some 2, some 3⟩⟩))
        "0123456789abcdef0123456789abcdef" 0 (some "k")
        ⟨"m", [⟨Role.user, MessageContent.str "hi"⟩], false, none, none, none, none⟩ :=
  C6_tuning_params_not_forwarded ⟨"k", "/vault"⟩
    (fun p _ _ => AgentOutcome.returns (some ⟨p ++ "!", ⟨some 1, some 2, some 3⟩⟩))
    "0123456789abcdef0123456789abcdef" 0 (some "k")
    ⟨"m", [⟨Role.user, MessageContent.str "hi"⟩], false, none, none, none, none⟩
    (some 1) (some 1) (some 0) (some 64)

/-! ## Exception handler and content normalization -/

/-- Claim C7: `paddy_exception_handler` maps `NoteNotFoundError` to HTTP
404, `VaultPathError` to HTTP 400 and any other exception in the
`PaddyError` hierarchy to HTTP 500, and for every exception produces the
structured log entry carrying the error type name, the error message and
the request's path and method, alongside the JSON response. -/
theorem C7_exception_handler_mapping :
    ∀ (request : Request) (exc : PaddyError),
      ((paddy_exception_handler request exc).2.status_code =
        match exc with
        | .noteNotFound _ => 404
        | .vaultPath _ => 400
        | .vaultOther _ => 500
        | .paddyOther _ => 500) ∧
      (paddy_exception_handler request exc).1 =
        { event := "vault.exception_raised"
          error_type := errorTypeName exc
          error_message := errorMessage exc
          path := request.path
          method := request.method } ∧
      (paddy_exception_handler request exc).2.error = errorMessage exc ∧
      (paddy_exception_handler request exc).2.type = errorTypeName exc := by
  intro request exc
  cases exc with
  | noteNotFound m => exact ⟨rfl, rfl, rfl, rfl⟩
  | vaultPath m => exact ⟨rfl, rfl, rfl, rfl⟩
  | vaultOther m => exact ⟨rfl, rfl, rfl, rfl⟩
  | paddyOther m => exact ⟨rfl, rfl, rfl, rfl⟩

theorem join_cons (x : String) (xs : List String) :
    String.join (x :: xs) = x ++ String.join xs := by
  rw [String.join_eq, String.join_eq]
  apply String.ext
  simp [String.data_append]

theorem join_truthy_filter (l : List ContentPart) :
    String.join ((l.filter fun p => p.type == "text" && truthy p.text).map
        fun p => p.text.getD "") =
      String.join ((l.filter fun p => p.type == "text").map
        fun p => p.text.getD "") := by
  induction l with
  | nil => rfl
  | cons p rest ih =>
      by_cases ht : p.type == "text"
      · by_cases htr : truthy p.text
        · simp only [List.filter_cons, ht, htr, Bool.and_true, Bool.true_and,
            if_pos, List.map_cons]
          rw [join_cons, join_cons, ih]
        · have hempty : p.text.getD "" = "" := by
            cases htext : p.text with
            | none => rfl
            | some s =>
                have hse : s.isEmpty = true := by
                  simpa [truthy, htext] using htr
                simp [(String.isEmpty_iff s).mp hse]
          simp only [List.filter_cons, ht, htr, Bool.and_false, Bool.true_and,
            List.map_cons]
          rw [if_neg (by simp), if_pos (by simp), List.map_cons, join_cons,
            hempty, ih]
          exact rfl
      · simp only [List.filter_cons, ht, Bool.false_and]
        rw [if_neg (by simp), if_neg (by simp)]
        exact ih

/-- Claim C8: normalization returns string content unchanged; for array
content it returns the concatenation, in list order, of the text of exactly
the text-typed parts (a text-typed part with absent text contributing the
empty string), with every non-text part dropped. -/
theorem C8_text_content_normalization :
    (∀ (role : Role) (s : String),
      text_content ⟨role, MessageContent.str s⟩ = s) ∧
    (∀ (role : Role) (l : List ContentPart),
      text_content ⟨role, MessageContent.parts l⟩ =
        String.join ((l.filter fun p => p.type == "text").map
          fun p => p.text.getD "")) := by
  constructor
  · intro role s
    rfl
  · intro role l
    exact join_truthy_filter l

theorem joinStrict_all_some (ol : List (Option String))
    (h : ∀ o ∈ ol, o ≠ none) :
    joinStrict ol = some (String.join (ol.map fun o => o.getD "")) := by
  induction ol with
  | nil => rfl
  | cons o rest ih =>
      cases o with
      | none => exact absurd rfl (h none (List.mem_cons_self none rest))
      | some s =>
          simp only [joinStrict, List.map_cons, Option.getD_some]
          rw [ih (fun x hx => h x (List.mem_cons_of_mem (some s) hx))]
          simp [join_cons]

/-- Claim C9: normalization is total.  The checked variant — in which a
selected part with a `None` text would poison the join, as `"".join` would
raise `TypeError` in Python — always succeeds and returns exactly
`text_content`; moreover a part whose type is `"text"` but whose text is
null or empty contributes nothing to the normalized string. -/
theorem C9_text_content_total :
    (∀ m : ChatMessage, text_content_checked m = some (text_content m)) ∧
    (∀ (role : Role) (p : ContentPart) (l : List ContentPart),
      p.type = "text" →
      (p.text = none ∨ p.text = some "") →
      text_content ⟨role, MessageContent.parts (p :: l)⟩ =
        text_content ⟨role, MessageContent.parts l⟩) := by
  constructor
  · intro m
    rcases m with ⟨role, content⟩
    cases content with
    | str s => rfl
    | parts l =>
        show joinStrict _ = some (text_content ⟨role, MessageContent.parts l⟩)
        rw [joinStrict_all_some]
        · show _ = some (String.join _)
          congr 1
          rw [List.map_map]
          rfl
        · intro o ho
          obtain ⟨p, hp, hpo⟩ := List.mem_map.mp ho
          have hguard := (List.mem_filter.mp hp).2
          have htr : truthy p.text = true := by
            exact (Bool.and_eq_true ..).mp hguard |>.2
          intro hnone
          rw [← hpo] at hnone
          rw [hnone] at htr
          simp [truthy] at htr
  · intro role p l hty htext
    have htr : truthy p.text = false := by
      rcases htext with h | h <;> simp [truthy, h, String.isEmpty]
    show String.join _ = String.join _
    rw [List.filter_cons, if_neg (by simp [hty, htr])]

/-- Witness for C9: a text part with null text and a text part with empty
text both contribute nothing. -/
theorem C9_witness :
    text_content ⟨Role.user, MessageContent.parts
        [⟨"text", none⟩, ⟨"text", some "A"⟩]⟩ =
      text_content ⟨Role.user, MessageContent.parts [⟨"text", some "A"⟩]⟩ ∧
    text_content ⟨Role.user, MessageContent.parts
        [⟨"text", some ""⟩, ⟨"text", some "B"⟩]⟩ =
      text_content ⟨Role.user, MessageContent.parts [⟨"text", some "B"⟩]⟩ := by
  constructor
  · exact C9_text_content_total.2 Role.user ⟨"text", none⟩
      [⟨"text", some "A"⟩] rfl (Or.inl rfl)
  · exact C9_text_content_total.2 Role.user ⟨"text", some ""⟩
      [⟨"text", some "B"⟩] rfl (Or.inr rfl)

end Paddy
